import Mathlib

/-!
Shallow embedding of the gastown narrator subsystem and mail router.

The embedding follows the Go sources: the narrator package (significance
classification, event reading with offset tracking, event filters, the
session lifecycle Manager) and internal/mail/router.go (Send, the
notification path and address resolution).  External collaborators that
are not part of this repository's sources (the tmux driver, the bd work
ledger, json decoding) appear as explicit oracle inputs; entities of this
repository whose source files are absent (the events and agent packages)
are modelled from the spec, as marked in their doc comments.

Byte offsets of the Go code are modelled as character counts: the event
log is ASCII JSONL, where the two coincide.
-/

/-- Narrative importance of an event.  Go: `type Significance int` with
iota constants, so comparisons are integer comparisons. -/
abbrev Significance := Nat

/-- The event should be ignored for narrative purposes. -/
def SignificanceNone : Significance := 0

/-- Minor event, may be summarized or batched. -/
def SignificanceLow : Significance := 1

/-- Notable event, worth mentioning individually. -/
def SignificanceMedium : Significance := 2

/-- Major event, requires detailed narrative treatment. -/
def SignificanceHigh : Significance := 3

/-- Modelled from the spec: the Event record of the events package, whose
source file is absent from the sources at hand.  Fields per the spec:
timestamp (RFC3339 string), type, actor (hierarchical path), payload
(string-keyed map, here restricted to the string values the narrator
reads), visibility ("narrative" or "audit"). -/
structure Event where
  timestamp : String
  typ : String
  actor : String
  payload : List (String × String)
  visibility : String
deriving DecidableEq

/-- Modelled from the spec: visibility value marking audit-only records. -/
def VisibilityAudit : String := "audit"

/-- Modelled from the spec: visibility value marking narrative records. -/
def VisibilityNarrative : String := "narrative"

/-- Modelled from the spec: event type constant for work assignment. -/
def TypeSling : String := "sling"

/-- Modelled from the spec: event type constant for work completion. -/
def TypeDone : String := "done"

/-- Modelled from the spec: event type constant for session handoff. -/
def TypeHandoff : String := "handoff"

/-- Modelled from the spec: event type constant for a successful merge. -/
def TypeMerged : String := "merged"

/-- Modelled from the spec: event type constant for a failed merge. -/
def TypeMergeFailed : String := "merge_failed"

/-- Modelled from the spec: event type constant for spawning a worker. -/
def TypeSpawn : String := "spawn"

/-- Modelled from the spec: event type constant for killing a worker. -/
def TypeKill : String := "kill"

/-- Modelled from the spec: event type constant for booting a rig. -/
def TypeBoot : String := "boot"

/-- Modelled from the spec: event type constant for halting services. -/
def TypeHalt : String := "halt"

/-- Modelled from the spec: event type constant for mass session death. -/
def TypeMassDeath : String := "mass_death"

/-- Modelled from the spec: event type constant for hooking work. -/
def TypeHook : String := "hook"

/-- Modelled from the spec: event type constant for unhooking work. -/
def TypeUnhook : String := "unhook"

/-- Modelled from the spec: event type constant for mail. -/
def TypeMail : String := "mail"

/-- Modelled from the spec: event type constant for a nudge. -/
def TypeNudge : String := "nudge"

/-- Modelled from the spec: event type constant for a single session death. -/
def TypeSessionDeath : String := "session_death"

/-- Modelled from the spec: event type constant for a sent escalation. -/
def TypeEscalationSent : String := "escalation_sent"

/-- Modelled from the spec: event type constant for an acked escalation. -/
def TypeEscalationAcked : String := "escalation_acked"

/-- Modelled from the spec: event type constant for a closed escalation. -/
def TypeEscalationClosed : String := "escalation_closed"

/-- Modelled from the spec: event type constant for a started merge. -/
def TypeMergeStarted : String := "merge_started"

/-- Modelled from the spec: event type constant for a skipped merge. -/
def TypeMergeSkipped : String := "merge_skipped"

/-- Modelled from the spec: event type constant for session start. -/
def TypeSessionStart : String := "session_start"

/-- Modelled from the spec: event type constant for session end. -/
def TypeSessionEnd : String := "session_end"

/-- Modelled from the spec: event type constant for patrol start. -/
def TypePatrolStarted : String := "patrol_started"

/-- Modelled from the spec: event type constant for patrol completion. -/
def TypePatrolComplete : String := "patrol_complete"

/-- Modelled from the spec: event type constant for a polecat health check. -/
def TypePolecatChecked : String := "polecat_checked"

/-- Modelled from the spec: event type constant for a polecat nudge. -/
def TypePolecatNudged : String := "polecat_nudged"

/-- classifySignificance determines the narrative importance of an event.
Audit-only events are not narrative material; otherwise the Go switch on
the event type, rendered as the equivalent equality chain, with the
default case yielding Low. -/
def classifySignificance (e : Event) : Significance :=
  if e.visibility = VisibilityAudit then SignificanceNone
  else if e.typ = TypeSling then SignificanceHigh
  else if e.typ = TypeDone then SignificanceHigh
  else if e.typ = TypeHandoff then SignificanceHigh
  else if e.typ = TypeMerged then SignificanceHigh
  else if e.typ = TypeMergeFailed then SignificanceHigh
  else if e.typ = TypeSpawn then SignificanceHigh
  else if e.typ = TypeKill then SignificanceHigh
  else if e.typ = TypeBoot then SignificanceHigh
  else if e.typ = TypeHalt then SignificanceHigh
  else if e.typ = TypeMassDeath then SignificanceHigh
  else if e.typ = TypeHook then SignificanceMedium
  else if e.typ = TypeUnhook then SignificanceMedium
  else if e.typ = TypeMail then SignificanceMedium
  else if e.typ = TypeNudge then SignificanceMedium
  else if e.typ = TypeSessionDeath then SignificanceMedium
  else if e.typ = TypeEscalationSent then SignificanceMedium
  else if e.typ = TypeEscalationAcked then SignificanceMedium
  else if e.typ = TypeEscalationClosed then SignificanceMedium
  else if e.typ = TypeMergeStarted then SignificanceMedium
  else if e.typ = TypeMergeSkipped then SignificanceMedium
  else if e.typ = TypeSessionStart then SignificanceLow
  else if e.typ = TypeSessionEnd then SignificanceLow
  else if e.typ = TypePatrolStarted then SignificanceLow
  else if e.typ = TypePatrolComplete then SignificanceLow
  else if e.typ = TypePolecatChecked then SignificanceLow
  else if e.typ = TypePolecatNudged then SignificanceLow
  else SignificanceLow

/-- The event types that appear as cases of the classifier's switch. -/
def classifierTypes : List String :=
  [TypeSling, TypeDone, TypeHandoff, TypeMerged, TypeMergeFailed,
   TypeSpawn, TypeKill, TypeBoot, TypeHalt, TypeMassDeath,
   TypeHook, TypeUnhook, TypeMail, TypeNudge, TypeSessionDeath,
   TypeEscalationSent, TypeEscalationAcked, TypeEscalationClosed,
   TypeMergeStarted, TypeMergeSkipped,
   TypeSessionStart, TypeSessionEnd, TypePatrolStarted,
   TypePatrolComplete, TypePolecatChecked, TypePolecatNudged]

/-- NarratorEvent wraps an Event with narrative metadata. -/
structure NarratorEvent where
  event : Event
  significance : Significance
  rig : String
  role : String
  summary : String
deriving DecidableEq

/-- FilterByRig returns events that relate to a specific rig. -/
def FilterByRig : List NarratorEvent → String → List NarratorEvent
  | [], _ => []
  | e :: rest, rig =>
    if e.rig = rig then e :: FilterByRig rest rig else FilterByRig rest rig

/-- FilterBySignificance returns events at or above the given significance. -/
def FilterBySignificance : List NarratorEvent → Significance → List NarratorEvent
  | [], _ => []
  | e :: rest, minSig =>
    if e.significance ≥ minSig then e :: FilterBySignificance rest minSig
    else FilterBySignificance rest minSig

/-- Splits a character stream at newline characters; the piece after the
final newline is always produced (possibly empty). -/
def splitAtNewlines (cur : List Char) : List Char → List (List Char)
  | [] => [cur]
  | c :: rest =>
    if c = '\n' then cur :: splitAtNewlines [] rest
    else splitAtNewlines (cur ++ [c]) rest

/-- Drops one trailing carriage return, as bufio's line splitter does. -/
def dropCR (l : List Char) : List Char :=
  if l.getLast? = some '\r' then l.dropLast else l

/-- Go bufio.MaxScanTokenSize, the default maximum token size of a
Scanner: 64 KiB.  The reader never calls scanner.Buffer, so this limit
applies.  Lengths here count characters, which model bytes for the ASCII
event log. -/
def maxScanTokenSize : Nat := 65536

/-- What running bufio.Scanner with ScanLines and the default buffer
over a character stream yields: the line tokens delivered, and whether
scanning stopped with the token-too-long error.  A newline-free segment
of at least maxScanTokenSize characters fills the maximal buffer before
a token can be completed, so the scan fails there (ErrTooLong), after
delivering the tokens that precede it.  When every segment is within
the limit, the tokens are the segments, without the empty piece after a
trailing newline (empty input yields no token) and with one trailing
carriage return stripped from each. -/
def scanLines (cs : List Char) : List String × Bool :=
  let pieces := splitAtNewlines [] cs
  if pieces.all (fun p => p.length < maxScanTokenSize) then
    let pieces := if pieces.getLast? = some [] then pieces.dropLast else pieces
    (pieces.map (fun l => String.mk (dropCR l)), false)
  else
    ((pieces.takeWhile (fun p => p.length < maxScanTokenSize)).map
      (fun l => String.mk (dropCR l)), true)

/-- The scan loop of readFromOffset: blank lines (TrimSpace yields empty,
i.e. every character is whitespace) are skipped, lines the parser rejects
are skipped, parsed events are appended in order. -/
def processLines (parse : String → Option NarratorEvent) :
    List String → List NarratorEvent
  | [] => []
  | line :: rest =>
    if line.toList.all Char.isWhitespace then processLines parse rest
    else
      match parse line with
      | none => processLines parse rest
      | some ev => ev :: processLines parse rest

/-- EventReader reads events from the event log with offset tracking. -/
structure EventReader where
  townRoot : String
  eventsPath : String
  offset : Int
deriving DecidableEq

/-- The observable filesystem state the reader touches: the content of
the events file at the reader's path, or none when the file does not
exist. -/
structure FileSys where
  eventsContent : Option String

/-- readFromOffset reads events starting from the given byte offset,
returning the Go pair (events, error) together with the reader after the
call.  A missing file yields an empty result and no error, leaving the
reader untouched.  Otherwise the file is consumed from the requested
position (a non-positive offset means the beginning, a position past the
end reads nothing); when the scanner stops with an error — a line beyond
its token-size limit — the events parsed from the tokens delivered so
far are returned with the error and the reader's offset is not updated;
on a clean scan the reader's offset is set to the end-of-read file
position.  The json decoding inside parseLine is the external
collaborator `parse`. -/
def readFromOffset (fs : FileSys) (parse : String → Option NarratorEvent)
    (r : EventReader) (startOffset : Int) :
    (List NarratorEvent × Option String) × EventReader :=
  match fs.eventsContent with
  | none => (([], none), r)
  | some content =>
    let pos : Int := if startOffset > 0 then startOffset else 0
    let size : Int := content.toList.length
    let scanned := scanLines (content.toList.drop pos.toNat)
    let events := processLines parse scanned.1
    if scanned.2 then
      ((events, some "reading events: bufio.Scanner: token too long"), r)
    else
      let newOffset : Int := if pos ≥ size then pos else size
      ((events, none), { r with offset := newOffset })

/-- ReadNew reads events added since the last read, from the reader's
current offset. -/
def EventReader.ReadNew (r : EventReader) (fs : FileSys)
    (parse : String → Option NarratorEvent) :
    (List NarratorEvent × Option String) × EventReader :=
  readFromOffset fs parse r r.offset

/-- ReadAll reads all events from the beginning. -/
def EventReader.ReadAll (r : EventReader) (fs : FileSys)
    (parse : String → Option NarratorEvent) :
    (List NarratorEvent × Option String) × EventReader :=
  readFromOffset fs parse r 0

/-- Splits a character list at the first occurrence of the separator
character, or returns none when the separator is absent. -/
def splitFirst (sep : Char) : List Char → Option (List Char × List Char)
  | [] => none
  | c :: rest =>
    if c = sep then some ([], rest)
    else
      match splitFirst sep rest with
      | none => none
      | some (a, b) => some (c :: a, b)

/-- Go strings.SplitN(s, sep, 2) for a one-character separator: at most
two pieces, split around the first occurrence. -/
def splitN2 (s : String) (sep : Char) : List String :=
  match splitFirst sep s.toList with
  | none => [s]
  | some (a, b) => [String.mk a, String.mk b]

/-- addressToSessionID converts a mail address to a tmux session ID.
Returns the empty string if the address format is not recognized. -/
def addressToSessionID (address : String) : String :=
  if "mayor".toList.isPrefixOf address.toList then "gt-mayor"
  else
    match splitN2 address '/' with
    | [rig, target] =>
      if target = "" then ""
      else "gt-" ++ rig ++ "-" ++ target
    | _ => ""

/-- Go strings.TrimSpace over the character list of a string. -/
def trimWS (l : List Char) : List Char :=
  ((l.dropWhile Char.isWhitespace).reverse.dropWhile Char.isWhitespace).reverse

/-- Message is an inter-agent mail message. -/
structure Message where
  fromAddr : String
  toAddr : String
  subject : String
  body : String
  priority : Nat
  threadID : String
  replyTo : String
  typ : String
deriving DecidableEq

/-- The oracle outcomes of the external collaborators Router.Send talks
to: whether the bd create command (the work-ledger write) succeeds and
what it printed on stderr, whether the tmux HasSession probe succeeds and
what it reports, and whether the banner push succeeds. -/
structure SendEnv where
  runOk : Bool
  stderrOut : String
  tmuxHasSessionOk : Bool
  tmuxHasSession : Bool
  bannerOk : Bool

/-- notifyRecipient sends a best-effort notification banner to the
recipient's tmux session: nil when the address has no session id, nil
when the session probe errors or reports no session, otherwise the
outcome of the banner push. -/
def Router.notifyRecipient (env : SendEnv) (msg : Message) : Option String :=
  let sessionID := addressToSessionID msg.toAddr
  if sessionID = "" then none
  else if env.tmuxHasSessionOk = false then none
  else if env.tmuxHasSession = false then none
  else if env.bannerOk then none
  else some "banner push failed"

/-- Send delivers a message via beads issue creation.  A failed ledger
write returns the trimmed stderr text if any, else a wrapped run error.
After a successful write the notification outcome is discarded and Send
returns success. -/
def Router.Send (env : SendEnv) (msg : Message) : Option String :=
  if env.runOk = false then
    let errMsg := String.mk (trimWS env.stderrOut.toList)
    if errMsg ≠ "" then some errMsg
    else some "sending message: run failed"
  else
    let _ := Router.notifyRecipient env msg
    none

/-- Modelled from the spec: the agent package session state, whose source
file is absent from the sources at hand; states per the spec data model. -/
inductive AgentState
  | stopped
  | starting
  | running
  | paused
  | zombie
deriving DecidableEq

/-- NarratorConfig contains configuration for the narrator. -/
structure NarratorConfig where
  style : String
  outputDir : String
  eventTypes : List String
  rigFilter : List String
deriving DecidableEq

/-- DefaultConfig returns the default narrator configuration: book style,
zero values elsewhere. -/
def DefaultConfig : NarratorConfig :=
  { style := "book", outputDir := "", eventTypes := [], rigFilter := [] }

/-- Narrator is the persisted state record of the narrative agent. -/
structure Narrator where
  state : AgentState
  startedAt : Option Nat
  config : NarratorConfig
  lastEventAt : Option Nat
  narrativesGenerated : Nat
deriving DecidableEq

/-- The default Narrator record NewManager installs for a fresh town:
stopped, default configuration. -/
def defaultNarrator : Narrator :=
  { state := .stopped, startedAt := none, config := DefaultConfig,
    lastEventAt := none, narrativesGenerated := 0 }

/-- The externally visible side effects Manager.Start can perform, in
the order the code issues them. -/
inductive Effect
  | killSession
  | mkdirNarratorDir
  | ensureSettings
  | newSessionWithCommand
  | setEnvironment
  | configureSession
  | saveState
  | killSessionWithProcesses
  | acceptBypassWarning
  | startupNudge
  | propulsionNudge
deriving DecidableEq

/-- The error conditions Manager.Start can return, one per return site. -/
inductive StartErr
  | alreadyRunning
  | killingZombie
  | creatingDir
  | ensuringSettings
  | buildingCommand
  | creatingSession
  | savingState
  | waitingForStart
deriving DecidableEq

/-- Oracle outcomes of the collaborators Manager.Start consults, in
code order: the tmux session-existence probe, the inner-process health
probe, killing a zombie session, creating the working directory,
writing the settings file, building the startup command, creating the
tmux session, the atomic state save, and the bounded readiness wait. -/
structure StartEnv where
  hasSession : Bool
  claudeRunning : Bool
  killOk : Bool
  mkdirOk : Bool
  settingsOk : Bool
  buildOk : Bool
  newSessionOk : Bool
  saveOk : Bool
  waitOk : Bool

/-- What a run of Manager.Start produces: the returned error (none on
success), the persisted narrator record after the call (the prior record
when no save took effect — the save is atomic), and the trace of side
effects attempted, in order. -/
structure StartResult where
  result : Option StartErr
  persisted : Narrator
  effects : List Effect
deriving DecidableEq

/-- The tail of Manager.Start after the session-existence check: ensure
the directory and settings, build the startup command, create the
session, apply best-effort env and theming, persist Running (killing the
session when the save fails), then wait for readiness (tearing down with
processes on timeout) and send the best-effort nudges. -/
def Manager.startFresh (env : StartEnv) (s0 : Narrator) (now : Nat)
    (eff0 : List Effect) : StartResult :=
  if env.mkdirOk = false then
    { result := some .creatingDir, persisted := s0,
      effects := eff0 ++ [.mkdirNarratorDir] }
  else if env.settingsOk = false then
    { result := some .ensuringSettings, persisted := s0,
      effects := eff0 ++ [.mkdirNarratorDir, .ensureSettings] }
  else if env.buildOk = false then
    { result := some .buildingCommand, persisted := s0,
      effects := eff0 ++ [.mkdirNarratorDir, .ensureSettings] }
  else if env.newSessionOk = false then
    { result := some .creatingSession, persisted := s0,
      effects := eff0 ++ [.mkdirNarratorDir, .ensureSettings,
                          .newSessionWithCommand] }
  else
    let effs := eff0 ++ [.mkdirNarratorDir, .ensureSettings,
                         .newSessionWithCommand, .setEnvironment,
                         .configureSession]
    let n1 : Narrator := { s0 with state := .running, startedAt := some now }
    if env.saveOk = false then
      { result := some .savingState, persisted := s0,
        effects := effs ++ [.saveState, .killSession] }
    else if env.waitOk = false then
      { result := some .waitingForStart, persisted := n1,
        effects := effs ++ [.saveState, .killSessionWithProcesses] }
    else
      { result := none, persisted := n1,
        effects := effs ++ [.saveState, .acceptBypassWarning,
                            .startupNudge, .propulsionNudge] }

/-- Manager.Start: if the tmux session exists and the inner process is
healthy, fail with AlreadyRunning before any side effect; if the session
exists but the inner process is dead (zombie), kill the session first
(failing the call when the kill fails) and fall through to the fresh
start path; otherwise start fresh directly. -/
def Manager.Start (env : StartEnv) (s0 : Narrator) (now : Nat) : StartResult :=
  if env.hasSession then
    if env.claudeRunning then
      { result := some .alreadyRunning, persisted := s0, effects := [] }
    else if env.killOk = false then
      { result := some .killingZombie, persisted := s0,
        effects := [.killSession] }
    else Manager.startFresh env s0 now [.killSession]
  else Manager.startFresh env s0 now []

/-- C1: evaluated at a concrete input, ReadAll does mutate the reader's
cursor, contrary to the claim and to ReadAll's own doc comment: on a
two-byte event log ("x" plus newline) a reader whose offset is 0 ends
with offset 2 after ReadAll, because readFromOffset stores the
end-of-read file position on every cleanly scanned read, the ReadAll
path included. -/
theorem readAll_advances_cursor_on_nonempty_log :
    (EventReader.ReadAll ⟨"", "", 0⟩ ⟨some "x\n"⟩ (fun _ => none)).2.offset
      = 2 := by
  decide

/-- C2 counterexample: a Start run in which every step succeeds except
the bounded readiness wait returns an error, yet the persisted narrator
record differs from the record before the call — it has been left as
Running — refuting the claim that a failed Start leaves the persisted
state equal to its prior value. -/
theorem start_wait_timeout_changes_persisted_state :
    ((Manager.Start ⟨false, false, true, true, true, true, true, true, false⟩
        defaultNarrator 7).result).isSome = true ∧
    (Manager.Start ⟨false, false, true, true, true, true, true, true, false⟩
        defaultNarrator 7).persisted ≠ defaultNarrator ∧
    (Manager.Start ⟨false, false, true, true, true, true, true, true, false⟩
        defaultNarrator 7).persisted.state = AgentState.running := by
  decide

/-- C2 (amended): when Start reaches the readiness wait (no healthy
session blocked it, and directory creation, settings, command build,
session creation and the state save all succeed) and the worker never
reaches the ready state within the bounded timeout, the operation aborts
with an error and tears the container down with its processes — but the
persisted session state, saved as Running before the wait, remains
Running rather than reverting to its pre-call value. -/
theorem start_wait_timeout_aborts_but_persists_running
    (env : StartEnv) (s0 : Narrator) (now : Nat)
    (hreach : env.hasSession = false ∨
      (env.claudeRunning = false ∧ env.killOk = true))
    (hm : env.mkdirOk = true) (hset : env.settingsOk = true)
    (hb : env.buildOk = true) (hn : env.newSessionOk = true)
    (hsave : env.saveOk = true) (hw : env.waitOk = false) :
    (Manager.Start env s0 now).result = some .waitingForStart ∧
    (Manager.Start env s0 now).persisted.state = AgentState.running ∧
    Effect.killSessionWithProcesses ∈ (Manager.Start env s0 now).effects := by
  rcases hreach with h | ⟨hc, hk⟩
  · simp [Manager.Start, Manager.startFresh, h, hm, hset, hb, hn, hsave, hw]
  · cases hhs : env.hasSession
    all_goals
      simp [Manager.Start, Manager.startFresh, hhs, hc, hk, hm, hset, hb, hn,
        hsave, hw]

/-- C2 witness: the amended theorem applied at a concrete run, every
step succeeding except the readiness wait. -/
theorem start_wait_timeout_witness :
    (Manager.Start ⟨false, false, true, true, true, true, true, true, false⟩
        defaultNarrator 7).result = some .waitingForStart ∧
    (Manager.Start ⟨false, false, true, true, true, true, true, true, false⟩
        defaultNarrator 7).persisted.state = AgentState.running ∧
    Effect.killSessionWithProcesses ∈
      (Manager.Start ⟨false, false, true, true, true, true, true, true, false⟩
        defaultNarrator 7).effects :=
  start_wait_timeout_aborts_but_persists_running _ defaultNarrator 7
    (Or.inl rfl) rfl rfl rfl rfl rfl rfl

/-- C3: Start on a Running session — tmux session present and the inner
process verified alive by the health probe — returns the distinct
AlreadyRunning condition with an empty effect trace and the persisted
record untouched; Start on a Zombie session — session present, inner
process dead — first kills the session and then (when the preparatory
steps succeed) creates the fresh session, the kill strictly preceding
the creation in the effect trace. -/
theorem start_running_and_zombie_behavior
    (env : StartEnv) (s0 : Narrator) (now : Nat) :
    (env.hasSession = true → env.claudeRunning = true →
      Manager.Start env s0 now = ⟨some .alreadyRunning, s0, []⟩) ∧
    (env.hasSession = true → env.claudeRunning = false → env.killOk = true →
     env.mkdirOk = true → env.settingsOk = true → env.buildOk = true →
     env.newSessionOk = true →
      ∃ rest, (Manager.Start env s0 now).effects =
        Effect.killSession :: Effect.mkdirNarratorDir ::
        Effect.ensureSettings :: Effect.newSessionWithCommand :: rest) := by
  constructor
  · intro h1 h2
    simp [Manager.Start, h1, h2]
  · intro h1 h2 h3 h4 h5 h6 h7
    cases hs : env.saveOk <;> cases hw : env.waitOk <;>
      (simp [Manager.Start, Manager.startFresh, h1, h2, h3, h4, h5, h6, h7,
        hs, hw]
       try exact ⟨_, rfl⟩)

/-- C3 witness: the theorem applied at a concrete healthy-running
session and at a concrete zombie session. -/
theorem start_running_and_zombie_witness :
    Manager.Start ⟨true, true, true, true, true, true, true, true, true⟩
      defaultNarrator 3 = ⟨some .alreadyRunning, defaultNarrator, []⟩ ∧
    ∃ rest,
      (Manager.Start ⟨true, false, true, true, true, true, true, true, true⟩
        defaultNarrator 3).effects =
      Effect.killSession :: Effect.mkdirNarratorDir ::
      Effect.ensureSettings :: Effect.newSessionWithCommand :: rest :=
  ⟨(start_running_and_zombie_behavior _ defaultNarrator 3).1 rfl rfl,
   (start_running_and_zombie_behavior _ defaultNarrator 3).2
     rfl rfl rfl rfl rfl rfl rfl⟩

/-- C4: for every collaborator outcome and message, Send returns an
error exactly when the work-ledger write fails; in particular, after a
successful write Send returns success whatever the notification path
(unresolvable address, failing or negative session probe, failing
banner push) did. -/
theorem send_errors_iff_persist_fails (env : SendEnv) (msg : Message) :
    (Router.Send env msg).isSome = true ↔ env.runOk = false := by
  cases h : env.runOk
  · simp [Router.Send, h]
    split <;> simp
  · simp [Router.Send, h]

/-- C5: the addresses "mayor" and "mayor/" both resolve to the session
id "gt-mayor", and the composite address "gastown/toast" resolves to
"gt-gastown-toast". -/
theorem mail_address_resolution :
    addressToSessionID "mayor" = "gt-mayor" ∧
    addressToSessionID "mayor/" = "gt-mayor" ∧
    addressToSessionID "gastown/toast" = "gt-gastown-toast" := by
  decide

/-- C6: an event whose visibility is audit classifies to None whatever
its type, and a narrative-visible sling (work assignment) event
classifies to High. -/
theorem classify_audit_none_sling_high (e : Event) :
    (e.visibility = VisibilityAudit →
      classifySignificance e = SignificanceNone) ∧
    (e.visibility ≠ VisibilityAudit → e.typ = TypeSling →
      classifySignificance e = SignificanceHigh) := by
  constructor
  · intro h
    simp [classifySignificance, h]
  · intro h ht
    simp [classifySignificance, h, ht]

/-- C6 witness: the theorem applied at a concrete audit sling event and
at a concrete narrative sling event. -/
theorem classify_audit_none_sling_high_witness :
    classifySignificance ⟨"", TypeSling, "", [], VisibilityAudit⟩ =
      SignificanceNone ∧
    classifySignificance ⟨"", TypeSling, "", [], VisibilityNarrative⟩ =
      SignificanceHigh :=
  ⟨(classify_audit_none_sling_high _).1 rfl,
   (classify_audit_none_sling_high _).2 (by decide) rfl⟩

/-- C7: a narrative-visible event whose type is none of the classifier's
switch cases classifies to Low — the default case, so no event is
dropped from the classified output. -/
theorem classify_unknown_type_low (e : Event)
    (hv : e.visibility ≠ VisibilityAudit) (ht : e.typ ∉ classifierTypes) :
    classifySignificance e = SignificanceLow := by
  simp [classifierTypes, List.mem_cons, not_or] at ht
  obtain ⟨h1, h2, h3, h4, h5, h6, h7, h8, h9, h10, h11, h12, h13, h14, h15,
    h16, h17, h18, h19, h20, h21, h22, h23, h24, h25, h26⟩ := ht
  simp [classifySignificance, hv, h1, h2, h3, h4, h5, h6, h7, h8, h9, h10,
    h11, h12, h13, h14, h15, h16, h17, h18, h19, h20, h21, h22, h23, h24,
    h25, h26]

/-- C7 witness: the theorem applied at a concrete narrative event of an
unrecognized type. -/
theorem classify_unknown_type_low_witness :
    classifySignificance ⟨"", "mystery", "", [], VisibilityNarrative⟩ =
      SignificanceLow :=
  classify_unknown_type_low _ (by decide) (by decide)

/-- The scan loop of readFromOffset keeps exactly the non-blank lines
the parser accepts, in order. -/
theorem processLines_eq (parse : String → Option NarratorEvent)
    (lines : List String) :
    processLines parse lines =
      (lines.filter (fun l => !(l.toList.all Char.isWhitespace))).filterMap
        parse := by
  induction lines with
  | nil => rfl
  | cons line rest ih =>
    cases hb : line.data.all Char.isWhitespace
    · cases hp : parse line <;>
        simp [processLines, String.toList, hb, hp, ih, List.filter_cons,
          -List.all_eq_true]
    · simp [processLines, String.toList, hb, ih, List.filter_cons,
        -List.all_eq_true]

/-- Splitting at newlines a stream that contains none yields a single
piece: the accumulator followed by the whole stream. -/
theorem splitAtNewlines_no_newline (cur : List Char) (l : List Char)
    (h : '\n' ∉ l) : splitAtNewlines cur l = [cur ++ l] := by
  induction l generalizing cur with
  | nil => simp [splitAtNewlines]
  | cons c rest ih =>
    simp only [List.mem_cons, not_or] at h
    rw [splitAtNewlines, if_neg (fun hc => h.1 hc.symm), ih _ h.2,
      List.append_assoc]
    rfl

/-- Running the scanner over a newline-free stream of at least the
maximum token size yields no token and the token-too-long error. -/
theorem scanLines_overlong (cs : List Char) (hnl : ('\n') ∉ cs)
    (hlong : maxScanTokenSize ≤ cs.length) :
    scanLines cs = ([], true) := by
  have hsplit : splitAtNewlines [] cs = [cs] := by
    rw [splitAtNewlines_no_newline [] _ hnl]
    rfl
  have hfalse : (decide (cs.length < maxScanTokenSize)) = false :=
    decide_eq_false (not_lt.mpr hlong)
  simp [scanLines, hsplit, hfalse, List.takeWhile_cons, -List.all_eq_true]

/-- When the scan of the requested portion stops with the error before
delivering a token, the read returns no events with the error, and the
reader — its offset included — is unchanged. -/
theorem readFromOffset_scan_error (content : String)
    (parse : String → Option NarratorEvent) (r : EventReader)
    (startOffset : Int)
    (h : scanLines (content.toList.drop
        (if startOffset > 0 then startOffset else 0).toNat) = ([], true)) :
    readFromOffset ⟨some content⟩ parse r startOffset =
      (([], some "reading events: bufio.Scanner: token too long"), r) := by
  have h2 : scanLines (content.data.drop
      (if startOffset > 0 then startOffset else 0).toNat) = ([], true) := h
  simp [readFromOffset, h2, processLines]

/-- C8 counterexample: a read over a log consisting of one malformed
line — maxScanTokenSize characters, no newline — fails with an error:
the scanner overflows its maximal buffer before delivering a token.
This refutes the claim that a line that fails to parse never causes the
read operation to fail; the reader's offset is unchanged on this error
path. -/
theorem read_overlong_line_fails :
    ((EventReader.ReadAll ⟨"", "", 0⟩
        ⟨some (String.mk (List.replicate maxScanTokenSize 'a'))⟩
        (fun _ => none)).1.2).isSome = true ∧
    (EventReader.ReadAll ⟨"", "", 0⟩
        ⟨some (String.mk (List.replicate maxScanTokenSize 'a'))⟩
        (fun _ => none)).2.offset = 0 := by
  have hnl : ('\n') ∉ List.replicate maxScanTokenSize 'a' := by
    intro hm
    exact absurd (List.eq_of_mem_replicate hm) (by decide)
  have hlong : maxScanTokenSize ≤
      (List.replicate maxScanTokenSize 'a').length := by
    rw [List.length_replicate]
  have hscan := scanLines_overlong _ hnl hlong
  have h0 : scanLines ((String.mk
      (List.replicate maxScanTokenSize 'a')).toList.drop
      ((if (0 : Int) > 0 then (0 : Int) else 0)).toNat) = ([], true) := by
    rw [show (String.mk (List.replicate maxScanTokenSize 'a')).toList.drop
        ((if (0 : Int) > 0 then (0 : Int) else 0)).toNat =
        List.replicate maxScanTokenSize 'a' from rfl]
    exact hscan
  have hread : EventReader.ReadAll ⟨"", "", 0⟩
      ⟨some (String.mk (List.replicate maxScanTokenSize 'a'))⟩
      (fun _ => none) =
      (([], some "reading events: bufio.Scanner: token too long"),
       ⟨"", "", 0⟩) :=
    readFromOffset_scan_error _ _ _ _ h0
  constructor
  · rw [hread]
    rfl
  · rw [hread]

/-- When every piece of the scanned portion is within the token-size
limit, the scan finishes without the error. -/
theorem scanLines_of_bounded (cs : List Char)
    (h : ∀ p ∈ splitAtNewlines [] cs, p.length < maxScanTokenSize) :
    (scanLines cs).2 = false := by
  have hall : ((splitAtNewlines [] cs).all
      (fun p => decide (p.length < maxScanTokenSize))) = true := by
    rw [List.all_eq_true]
    intro p hp
    exact decide_eq_true (h p hp)
  simp [scanLines, hall, -List.all_eq_true]

/-- C8 (amended): for a read whose scanned portion has every line within
the scanner's token-size limit, reading never fails, whatever the parser
rejects: the result is exactly the parses of the non-blank lines the
parser accepts from the portion of the file at and after the requested
offset, with no error — malformed lines within the limit are skipped,
not fatal; only a line at or beyond the limit makes the read fail. -/
theorem read_skips_malformed_lines (content : String)
    (parse : String → Option NarratorEvent) (r : EventReader)
    (startOffset : Int)
    (hbounded : ∀ p ∈ splitAtNewlines [] (content.toList.drop
        (if startOffset > 0 then startOffset else 0).toNat),
      p.length < maxScanTokenSize) :
    (readFromOffset ⟨some content⟩ parse r startOffset).1 =
      (((scanLines (content.toList.drop
          (if startOffset > 0 then startOffset else 0).toNat)).1.filter
        (fun l => !(l.toList.all Char.isWhitespace))).filterMap parse,
       none) := by
  have h2 : (scanLines (content.data.drop
      (if startOffset > 0 then startOffset else 0).toNat)).2 = false :=
    scanLines_of_bounded _ hbounded
  simp [readFromOffset, h2, processLines_eq]

/-- C8 witness: the amended theorem applied at a concrete two-line log
whose lines are both within the limit and both rejected by the parser:
the read succeeds with an empty result. -/
theorem read_skips_malformed_lines_witness :
    (readFromOffset ⟨some "notjson\nbad2\n"⟩ (fun _ => none) ⟨"", "", 0⟩
      0).1 = ([], none) := by
  rw [read_skips_malformed_lines "notjson\nbad2\n" (fun _ => none)
    ⟨"", "", 0⟩ 0 (by decide)]
  decide

/-- C9: the rig filter and the minimum-significance filter commute: for
every event list, rig name and minimum significance, applying them in
either order yields the same list (both are pure functions of their
input, which they never modify). -/
theorem filters_commute (evts : List NarratorEvent) (rig : String)
    (minSig : Significance) :
    FilterByRig (FilterBySignificance evts minSig) rig =
      FilterBySignificance (FilterByRig evts rig) minSig := by
  induction evts with
  | nil => rfl
  | cons e rest ih =>
    by_cases h1 : e.rig = rig <;> by_cases h2 : e.significance ≥ minSig <;>
      simp [FilterByRig, FilterBySignificance, h1, h2, ih]

/-- C10: when the event log file does not exist, ReadNew and ReadAll
both return an empty result with no error and leave the reader — its
offset included — unchanged. -/
theorem read_missing_file_empty_no_error (r : EventReader)
    (parse : String → Option NarratorEvent) :
    r.ReadNew ⟨none⟩ parse = (([], none), r) ∧
    r.ReadAll ⟨none⟩ parse = (([], none), r) :=
  ⟨rfl, rfl⟩
